import Mathlib

/-!
Shallow embedding of improver/blending/calculate_weights_and_blend.py
(class WeightAndBlend), together with interface-level models of the external
collaborators it calls.  Machine integers do not occur in this module; the
float-valued tuning parameters (endpoint weights, shape scalar, fuzzy length)
are carried as rationals, since no claim depends on float rounding.

Error discipline: Python exceptions are modelled with Except Err; the
warnings.warn call and each collaborator invocation are recorded as events in
a trace returned alongside the result, so that claims about which
collaborators run (and how often warnings fire) are statable.
-/

deriving instance DecidableEq for Except

/-- Errors raised by the orchestrator or its collaborators: ValueError
(configuration errors), iris CoordinateNotFoundError, the geometry failure
from the equal-area grid check, and Python UnboundLocalError (reading the
never-assigned weights variable on the dispatch fall-through). -/
inductive Err where
  | valueError (msg : String)
  | coordNotFound (name : String)
  | geometryError (msg : String)
  | unboundLocal
deriving DecidableEq, Repr

/-- One named coordinate of a cube: its name, its points (timestamp tokens or
identity labels, as fixed-width strings), and its attribute dictionary. -/
structure Coord where
  name : String
  points : List String
  attributes : List (String × String)
deriving DecidableEq, Repr

/-- An iris-style data container, reduced to the parts this module reads:
the coordinate list, the cube attribute dictionary, whether the payload is a
masked array, and the grid-geometry facts the spatial helpers consult. -/
structure Cube where
  coords : List Coord
  attributes : List (String × String)
  masked : Bool
  equalArea : Bool
  gridSpacing : Rat
deriving DecidableEq, Repr

/-- Python dict.update for one key: overwrite in place or append. -/
def updateAttr (attrs : List (String × String)) (key val : String) : List (String × String) :=
  if attrs.any (fun p => p.1 = key) then
    attrs.map (fun p => if p.1 = key then (key, val) else p)
  else attrs ++ [(key, val)]

/-- Attribute lookup in an attribute dictionary. -/
def lookupAttr (attrs : List (String × String)) (key : String) : Option String :=
  (attrs.find? (fun p => p.1 = key)).map (fun p => p.2)

/-- First coordinate with the given name, iris cube.coord style. -/
def lookupCoord (l : List Coord) (n : String) : Option Coord :=
  l.find? (fun co => co.name = n)

/-- Rewrite the (first and every) coordinate named n by f, leaving the rest. -/
def mapOnCoord (f : Coord → Coord) (n : String) (l : List Coord) : List Coord :=
  l.map (fun co => if co.name = n then f co else co)

def Cube.findCoord (c : Cube) (n : String) : Option Coord :=
  lookupCoord c.coords n

def Cube.hasCoord (c : Cube) (n : String) : Bool :=
  (c.findCoord n).isSome

def Cube.coordNames (c : Cube) : List String :=
  c.coords.map Coord.name

def Cube.coordPoints (c : Cube) (n : String) : List String :=
  match c.findCoord n with
  | some co => co.points
  | none => []

def Cube.coordAttr (c : Cube) (n key : String) : Option String :=
  match c.findCoord n with
  | some co => lookupAttr co.attributes key
  | none => none

def Cube.setCoordPoints (c : Cube) (n : String) (pts : List String) : Cube :=
  { c with coords := mapOnCoord (fun co => { co with points := pts }) n c.coords }

def Cube.setCoordAttrRaw (c : Cube) (n key val : String) : Cube :=
  { c with coords := mapOnCoord (fun co => { co with attributes := updateAttr co.attributes key val }) n c.coords }

/-- The in-place update result.coord(name).attributes.update({key: val}) of the
source: iris raises CoordinateNotFoundError when the coordinate is absent. -/
def Cube.setCoordAttr (c : Cube) (n key val : String) : Except Err Cube :=
  match c.findCoord n with
  | some _ => .ok (c.setCoordAttrRaw n key val)
  | none => .error (.coordNotFound n)

/-- Modelled from the spec: amend_attributes (improver.metadata.amend, not in
the excerpt) applies the attribute-amendment map to the container in place;
each key of the map is written into the cube attribute dictionary. -/
def amend_attributes (c : Cube) (d : List (String × String)) : Cube :=
  { c with attributes := d.foldl (fun a kv => updateAttr a kv.1 kv.2) c.attributes }

/-- The guard of the source: apply the amendment map only when supplied. -/
def amendIfSupplied (d : Option (List (String × String))) (c : Cube) : Cube :=
  match d with
  | some m => amend_attributes c m
  | none => c

/-- Largest timestamp token, lexicographically (the fixed-width format makes
lexicographic and chronological order agree). -/
def maxCycle : List String → Option String
  | [] => none
  | c :: cs => some (cs.foldl (fun a b => if a < b then b else a) c)

/-- All forecast_reference_time points found among the given cubes. -/
def allFrtPoints (cubes : List Cube) : List String :=
  cubes.foldr (fun c acc => c.coordPoints "forecast_reference_time" ++ acc) []

/-- The cycle the rebadging routine stamps: the requested one, or the latest
one found among the inputs. -/
def rebadgeTarget (cubes : List Cube) (cycletime : Option String) : Option String :=
  match cycletime with
  | some t => some t
  | none => maxCycle (allFrtPoints cubes)

/-- Modelled from the spec: rebadge_forecasts_as_latest_cycle
(improver.metadata.forecast_times, not in the excerpt) rebadges the forecast
reference time of every input to the requested cycle time or, when none was
requested, to the latest cycle time found among the inputs. -/
def rebadge_forecasts_as_latest_cycle (cubes : List Cube) (cycletime : Option String) : List Cube :=
  match rebadgeTarget cubes cycletime with
  | some t => cubes.map (fun c => c.setCoordPoints "forecast_reference_time" [t])
  | none => cubes

/-- The destructuring call (result,) = rebadge_forecasts_as_latest_cycle([result], cycletime). -/
def rebadgeSingle (c : Cube) (cycletime : Option String) : Cube :=
  (rebadge_forecasts_as_latest_cycle [c] cycletime).headD c

/-- Modelled from the spec: add_blend_time (improver.metadata.forecast_times,
not in the excerpt) attaches a blend time coordinate set to the requested
cycle time (overwriting it when already present). -/
def add_blend_time (c : Cube) (cycletime : String) : Cube :=
  if c.hasCoord "blend_time" then c.setCoordPoints "blend_time" [cycletime]
  else { c with coords := c.coords ++ [⟨"blend_time", [cycletime], []⟩] }

/-- Modelled from the spec: check_if_grid_is_equal_area
(improver.utilities.spatial, not in the excerpt) fails with a geometry error
exactly when the grid is not equal area. -/
def check_if_grid_is_equal_area (c : Cube) : Except Err Unit :=
  if c.equalArea then .ok () else .error (.geometryError "Grid is not equal area")

/-- Modelled from the spec: distance_to_number_of_grid_cells
(improver.utilities.spatial, not in the excerpt) converts a physical distance
into a possibly fractional cell count. -/
def distance_to_number_of_grid_cells (c : Cube) (distance : Rat) : Rat :=
  distance / c.gridSpacing

/-- A weight field: the coordinate it is indexed by, one value per
realization, and whether it has been spatially expanded. -/
structure Weights where
  coordName : String
  vals : List Rat
  spatial : Bool
deriving DecidableEq, Repr

/-- The nested configuration table of dictionary mode (contents never inspected by the
orchestrator; they are only passed through to the calculator). -/
abbrev WtsDict := List (String × List (String × Rat))

/-- Modelled from the spec: the dictionary-driven weight calculator
(improver.blending.weights.ChooseWeightsLinear, not in the excerpt); the
weighting mathematics are out of scope, only the call interface matters. -/
def ChooseWeightsLinear (weighting_coord : Option String) (wts_dict : Option WtsDict)
    (config_coord_name : String) (cube : Cube) : Weights :=
  ⟨config_coord_name, (cube.coordPoints config_coord_name).map (fun _ => (1 : Rat)), false⟩

/-- Modelled from the spec: the linear weight calculator
(improver.blending.weights.ChooseDefaultWeightsLinear, not in the excerpt). -/
def ChooseDefaultWeightsLinear (y0val ynval : Option Rat) (cube : Cube)
    (blend_coord : String) : Weights :=
  ⟨blend_coord, (cube.coordPoints blend_coord).map (fun _ => (1 : Rat)), false⟩

/-- Modelled from the spec: the nonlinear weight calculator
(improver.blending.weights.ChooseDefaultWeightsNonLinear, not in the excerpt). -/
def ChooseDefaultWeightsNonLinear (cval : Option Rat) (cube : Cube)
    (blend_coord : String) (inverse_ordering : Bool) : Weights :=
  ⟨blend_coord, (cube.coordPoints blend_coord).map (fun _ => (1 : Rat)), false⟩

/-- Modelled from the spec: the spatial weight refiner
(improver.blending.spatial_weights.SpatiallyVaryingWeightsFromMask, not in the
excerpt) expands a 1-D weight field into a spatially varying one. -/
def SpatiallyVaryingWeightsFromMask (blend_coord : String) (fuzzy_length : Rat)
    (cube : Cube) (weights : Weights) : Weights :=
  ⟨blend_coord, weights.vals, true⟩

/-- Modelled from the spec: the weighted reducer
(improver.blending.weighted_blend.WeightedBlendAcrossWholeDimension, not in
the excerpt) collapses the blend coordinate out of the container, amends
attributes when a map is supplied and repairs forecast-time metadata. -/
def WeightedBlendAcrossWholeDimension (blend_coord : String) (cube : Cube)
    (weights : Weights) (cycletime : Option String)
    (attributes_dict : Option (List (String × String))) : Cube :=
  let collapsed : Cube := { cube with coords := cube.coords.filter (fun co => co.name ≠ blend_coord) }
  rebadgeSingle (amendIfSupplied attributes_dict collapsed) cycletime

/-- Trace events: one per collaborator call or warning emitted during an
invocation, carrying the arguments the orchestrator computed for the call. -/
inductive Event where
  | weightCalcDict (weighting_coord : Option String) (config_coord : String)
  | weightCalcLinear (y0val ynval : Option Rat) (blend_coord : String)
  | weightCalcNonLinear (cval : Option Rat) (blend_coord : String) (inverse_ordering : Bool)
  | gridCheck (equalArea : Bool)
  | spatialRefine (blend_coord : String)
  | maskWarning (msg : String)
  | blendCall (blend_coord : String)
deriving DecidableEq, Repr

def Event.isWeightCalc : Event → Bool
  | .weightCalcDict _ _ => true
  | .weightCalcLinear _ _ _ => true
  | .weightCalcNonLinear _ _ _ => true
  | _ => false

def Event.isSpatialRefine : Event → Bool
  | .spatialRefine _ => true
  | _ => false

def Event.isMaskWarning : Event → Bool
  | .maskWarning _ => true
  | _ => false

def Event.isBlendCall : Event → Bool
  | .blendCall _ => true
  | _ => false

/-- An event is consistent with blend coordinate b when every blend-coordinate
argument it carries equals b (events without one are vacuously consistent). -/
def Event.usesBlendCoord (b : String) : Event → Bool
  | .weightCalcLinear _ _ bc => bc = b
  | .weightCalcNonLinear _ bc _ => bc = b
  | .spatialRefine bc => bc = b
  | .blendCall bc => bc = b
  | _ => true

/-- The orchestrator instance: the fields WeightAndBlend.__init__ stores.
Fields irrelevant to the selected method are none (they are never read). -/
structure WeightAndBlend where
  blend_coord : String
  wts_calc_method : String
  weighting_coord : Option String
  wts_dict : Option WtsDict
  y0val : Option Rat
  ynval : Option Rat
  cval : Option Rat
  inverse_ordering : Bool
deriving DecidableEq, Repr

/-- Embeds WeightAndBlend.__init__ (src lines 64-118): stores the parameters
of the selected method and raises ValueError on an unrecognised method tag. -/
def WeightAndBlend.init (blend_coord wts_calc_method : String)
    (weighting_coord : Option String) (wts_dict : Option WtsDict)
    (y0val ynval cval : Option Rat) (inverse_ordering : Bool) :
    Except Err WeightAndBlend :=
  if wts_calc_method = "dict" then
    .ok ⟨blend_coord, wts_calc_method, weighting_coord, wts_dict, none, none, none, false⟩
  else if wts_calc_method = "linear" then
    .ok ⟨blend_coord, wts_calc_method, none, none, y0val, ynval, none, false⟩
  else if wts_calc_method = "nonlinear" then
    .ok ⟨blend_coord, wts_calc_method, none, none, none, none, cval, inverse_ordering⟩
  else
    .error (.valueError ("Weights calculation method " ++ wts_calc_method ++ " unrecognised"))

/-- True when pat occurs at the start of the character list. -/
def startsWithChars : List Char → List Char → Bool
  | [], _ => true
  | _ :: _, [] => false
  | p :: ps, c :: cs => p = c && startsWithChars ps cs

/-- True when pat occurs anywhere in the character list. -/
def occursInChars (pat : List Char) : List Char → Bool
  | [] => startsWithChars pat []
  | c :: cs => startsWithChars pat (c :: cs) || occursInChars pat cs

/-- Python substring membership: pat in s. -/
def hasSubstr (s pat : String) : Bool :=
  occursInChars pat.data s.data

/-- Embeds WeightAndBlend._calculate_blending_weights (src lines 120-153):
three-way dispatch on the stored method tag, with the implicit Python
fall-through (weights never assigned) modelled as none.  Returns the computed
weights together with the event recording the collaborator call made. -/
def WeightAndBlend.calculateBlendingWeights (self : WeightAndBlend) (cube : Cube) :
    Option Weights × List Event :=
  if self.wts_calc_method = "dict" then
    let config_coord := if hasSubstr self.blend_coord "model" then "model_configuration"
      else self.blend_coord
    (some (ChooseWeightsLinear self.weighting_coord self.wts_dict config_coord cube),
      [Event.weightCalcDict self.weighting_coord config_coord])
  else if self.wts_calc_method = "linear" then
    (some (ChooseDefaultWeightsLinear self.y0val self.ynval cube self.blend_coord),
      [Event.weightCalcLinear self.y0val self.ynval self.blend_coord])
  else if self.wts_calc_method = "nonlinear" then
    (some (ChooseDefaultWeightsNonLinear self.cval cube self.blend_coord self.inverse_ordering),
      [Event.weightCalcNonLinear self.cval self.blend_coord self.inverse_ordering])
  else (none, [])

/-- Embeds WeightAndBlend._update_spatial_weights (src lines 155-180): grid
check first, then distance conversion, then the spatial refiner. -/
def WeightAndBlend.updateSpatialWeightsEv (self : WeightAndBlend) (cube : Cube)
    (weights : Weights) (fuzzy_length : Rat) : Except Err Weights × List Event :=
  match check_if_grid_is_equal_area cube with
  | .error e => (.error e, [Event.gridCheck cube.equalArea])
  | .ok _ =>
    let grid_cells := distance_to_number_of_grid_cells cube fuzzy_length
    (.ok (SpatiallyVaryingWeightsFromMask self.blend_coord grid_cells cube weights),
      [Event.gridCheck cube.equalArea, Event.spatialRefine self.blend_coord])

def deprecationMessage (coordName : String) : String :=
  coordName ++ " will be removed in future and should not be used"

/-- The for-loop of _update_metadata_only (src lines 195-197), unrolled over
its two-element literal list: stamp the deprecation advisory on
forecast_period then forecast_reference_time, in place. -/
def deprecateTimeCoords (c : Cube) : Except Err Cube :=
  match c.setCoordAttr "forecast_period" "deprecation_message" (deprecationMessage "forecast_period") with
  | .error e => .error e
  | .ok c2 =>
    match c2.setCoordAttr "forecast_reference_time" "deprecation_message" (deprecationMessage "forecast_reference_time") with
    | .error e => .error e
    | .ok c3 => .ok c3

def missingCycletimeMessage : String :=
  "Current cycle time is required for cycle and model blending"

/-- Embeds WeightAndBlend._update_metadata_only (src lines 182-205): copy the
merged cube, amend attributes when a map is supplied, rebadge to the requested
or latest cycle, and for cycle- or model-identity blend coordinates stamp the
deprecation advisories and the blend time, raising ValueError when the
mandatory cycle time is missing. -/
def WeightAndBlend.updateMetadataOnly (self : WeightAndBlend) (cube : Cube)
    (attributes_dict : Option (List (String × String))) (cycletime : Option String) :
    Except Err Cube :=
  let result := amendIfSupplied attributes_dict cube
  let result := rebadgeSingle result cycletime
  if self.blend_coord = "forecast_reference_time" ∨ self.blend_coord = "model_id" then
    match deprecateTimeCoords result with
    | .error e => .error e
    | .ok result2 =>
      match cycletime with
      | some ct => .ok (add_blend_time result2 ct)
      | none => .error (.valueError missingCycletimeMessage)
  else .ok result

def maskWarningMessage : String :=
  "Blending masked data without spatial weights has not been fully tested."

/-- The coordinate rename of WeightAndBlend.process (src lines 258-259): a
blend coordinate name containing model is rewritten to model_id on the
instance itself. -/
def renameBlendCoord (self : WeightAndBlend) : WeightAndBlend :=
  if hasSubstr self.blend_coord "model" then { self with blend_coord := "model_id" } else self

/-- Embeds the body of WeightAndBlend.process after the coordinate rename
(src lines 261-288): degenerate check, weight dispatch, spatial refinement or
masked-data advisory, weighted reduction.  Returns the instance (whose
blend_coord field may have been rewritten by the caller), the result or
raised error, and the trace of collaborator calls and warnings. -/
def WeightAndBlend.processRenamed (self : WeightAndBlend) (cube : Cube)
    (cycletime : Option String) (spatial_weights : Bool) (fuzzy_length : Rat)
    (attributes_dict : Option (List (String × String))) :
    WeightAndBlend × Except Err Cube × List Event :=
  if self.blend_coord ∉ cube.coordNames ∨ (cube.coordPoints self.blend_coord).length = 1 then
    (self, self.updateMetadataOnly cube attributes_dict cycletime, [])
  else
    match self.calculateBlendingWeights cube with
    | (none, ev1) => (self, .error .unboundLocal, ev1)
    | (some weights, ev1) =>
      if spatial_weights then
        match self.updateSpatialWeightsEv cube weights fuzzy_length with
        | (.error e, ev2) => (self, .error e, ev1 ++ ev2)
        | (.ok weights2, ev2) =>
          (self,
            .ok (WeightedBlendAcrossWholeDimension self.blend_coord cube weights2 cycletime attributes_dict),
            ev1 ++ ev2 ++ [Event.blendCall self.blend_coord])
      else
        let ev2 := if cube.masked then [Event.maskWarning maskWarningMessage] else []
        (self,
          .ok (WeightedBlendAcrossWholeDimension self.blend_coord cube weights cycletime attributes_dict),
          ev1 ++ ev2 ++ [Event.blendCall self.blend_coord])

/-- Embeds WeightAndBlend.process (src lines 207-288) from the point where
the external merger has produced the merged cube: coordinate rename on the
instance, then the renamed body.  The merge itself (src lines 251-256) is an
external collaborator; quantifying over the merged cube covers every possible
merge outcome. -/
def WeightAndBlend.processAfterMerge (self : WeightAndBlend) (cube : Cube)
    (cycletime : Option String) (spatial_weights : Bool) (fuzzy_length : Rat)
    (attributes_dict : Option (List (String × String))) :
    WeightAndBlend × Except Err Cube × List Event :=
  WeightAndBlend.processRenamed (renameBlendCoord self) cube cycletime spatial_weights
    fuzzy_length attributes_dict

/-- A tiny object store making Python in-place mutation and object identity
explicit: references are allocation indices, cube.copy() allocates a fresh
reference, and each in-place collaborator call writes through the reference it
was handed. -/
structure Store where
  mem : Nat → Cube
  next : Nat

def Store.read (s : Store) (r : Nat) : Cube := s.mem r

def Store.write (s : Store) (r : Nat) (c : Cube) : Store :=
  { s with mem := fun n => if n = r then c else s.mem n }

/-- Allocate at index s.next (the fresh reference) and bump the counter. -/
def Store.alloc (s : Store) (c : Cube) : Store :=
  { mem := fun n => if n = s.next then c else s.mem n, next := s.next + 1 }

/-- Embeds WeightAndBlend._update_metadata_only (src lines 182-205) at the
level of object references, so that the fate of the merged cube held by the caller is
observable: the method first copies its input (a fresh allocation) and every
subsequent in-place update hits the copy (or the rebadged cube derived from
it), never the input reference. -/
def WeightAndBlend.updateMetadataOnlyS (self : WeightAndBlend) (s0 : Store) (cubeRef : Nat)
    (attributes_dict : Option (List (String × String))) (cycletime : Option String) :
    Except Err Nat × Store :=
  let resultRef := s0.next
  let s1 := s0.alloc (s0.read cubeRef)
  let s2 := match attributes_dict with
    | some d => s1.write resultRef (amend_attributes (s1.read resultRef) d)
    | none => s1
  let resultRef2 := s2.next
  let s3 := s2.alloc (rebadgeSingle (s2.read resultRef) cycletime)
  if self.blend_coord = "forecast_reference_time" ∨ self.blend_coord = "model_id" then
    match (s3.read resultRef2).setCoordAttr "forecast_period" "deprecation_message" (deprecationMessage "forecast_period") with
    | .error e => (.error e, s3)
    | .ok c1 =>
      let s4 := s3.write resultRef2 c1
      match (s4.read resultRef2).setCoordAttr "forecast_reference_time" "deprecation_message" (deprecationMessage "forecast_reference_time") with
      | .error e => (.error e, s4)
      | .ok c2 =>
        let s5 := s4.write resultRef2 c2
        match cycletime with
        | some ct => (.ok resultRef2, s5.write resultRef2 (add_blend_time (s5.read resultRef2) ct))
        | none => (.error (.valueError missingCycletimeMessage), s5)
  else (.ok resultRef2, s3)

/-- Boolean success test for an Except result. -/
def exOk {α : Type} : Except Err α → Bool
  | .ok _ => true
  | .error _ => false

theorem lookupCoord_nil (m : String) : lookupCoord [] m = none := rfl

theorem lookupCoord_cons (co : Coord) (tl : List Coord) (m : String) :
    lookupCoord (co :: tl) m = if co.name = m then some co else lookupCoord tl m := by
  by_cases h : co.name = m <;> simp [lookupCoord, List.find?, h]

theorem mapOnCoord_nil (f : Coord → Coord) (n : String) : mapOnCoord f n [] = [] := rfl

theorem mapOnCoord_cons (f : Coord → Coord) (n : String) (co : Coord) (tl : List Coord) :
    mapOnCoord f n (co :: tl) = (if co.name = n then f co else co) :: mapOnCoord f n tl := by
  by_cases h : co.name = n <;> simp [mapOnCoord, h]

theorem lookup_mapOnCoord (f : Coord → Coord) (n m : String) (l : List Coord)
    (hf : ∀ co, (f co).name = co.name) :
    lookupCoord (mapOnCoord f n l) m =
      if m = n then (lookupCoord l m).map f else lookupCoord l m := by
  induction l with
  | nil =>
    rw [mapOnCoord_nil, lookupCoord_nil]
    by_cases h : m = n <;> simp [h, lookupCoord_nil]
  | cons co tl ih =>
    rw [mapOnCoord_cons, lookupCoord_cons]
    by_cases hn : co.name = n
    · by_cases hm : m = n
      · subst hm
        simp [hn, hf co, lookupCoord_cons]
      · have hnm : n ≠ m := fun hh => hm hh.symm
        have hcm : co.name ≠ m := by rw [hn]; exact hnm
        simp [hn, hf co, hnm, hm, hcm, ih, lookupCoord_cons]
    · by_cases hcm : co.name = m
      · have hm : m ≠ n := fun hh => hn (hcm.trans hh)
        simp [hn, hcm, hm, lookupCoord_cons]
      · simp [hn, hcm, ih, lookupCoord_cons]

theorem lookup_append_some (l l2 : List Coord) (m : String) (co : Coord)
    (h : lookupCoord l m = some co) : lookupCoord (l ++ l2) m = some co := by
  induction l with
  | nil => rw [lookupCoord_nil] at h; cases h
  | cons a tl ih =>
    rw [lookupCoord_cons] at h
    rw [List.cons_append, lookupCoord_cons]
    by_cases ha : a.name = m
    · simpa [ha] using h
    · rw [if_neg ha] at h ⊢; exact ih h

theorem lookup_append_none (l l2 : List Coord) (m : String)
    (h : lookupCoord l m = none) : lookupCoord (l ++ l2) m = lookupCoord l2 m := by
  induction l with
  | nil => simp
  | cons a tl ih =>
    rw [lookupCoord_cons] at h
    rw [List.cons_append, lookupCoord_cons]
    by_cases ha : a.name = m
    · rw [if_pos ha] at h; cases h
    · rw [if_neg ha] at h ⊢; exact ih h

theorem lookupAttr_cons (p : String × String) (tl : List (String × String)) (k : String) :
    lookupAttr (p :: tl) k = if p.1 = k then some p.2 else lookupAttr tl k := by
  by_cases h : p.1 = k <;> simp [lookupAttr, List.find?, h]

theorem lookupAttr_updateAttr_self (attrs : List (String × String)) (k v : String) :
    lookupAttr (updateAttr attrs k v) k = some v := by
  unfold updateAttr
  by_cases h : attrs.any (fun p => p.1 = k)
  · rw [if_pos h]
    induction attrs with
    | nil => simp at h
    | cons p tl ih =>
      by_cases hp : p.1 = k
      · simp only [List.map_cons, if_pos hp]
        rw [lookupAttr_cons]
        simp
      · simp only [List.any_cons, Bool.or_eq_true, decide_eq_true_eq] at h
        rcases h with h | h
        · exact absurd h hp
        · simp only [List.map_cons, if_neg hp]
          rw [lookupAttr_cons, if_neg hp]
          exact ih h
  · rw [if_neg h]
    induction attrs with
    | nil => simp [lookupAttr, List.find?]
    | cons p tl ih =>
      simp only [List.any_cons, Bool.or_eq_true, decide_eq_true_eq] at h
      push_neg at h
      rw [List.cons_append, lookupAttr_cons, if_neg h.1]
      apply ih
      simp only [Bool.not_eq_true, List.any_eq_false, decide_eq_true_eq]
      intro x hx
      have := h.2
      simp only [Bool.not_eq_true, List.any_eq_false, decide_eq_true_eq] at this
      exact this x hx

theorem lookup_filter_ne (l : List Coord) (b : String) :
    lookupCoord (l.filter (fun co => co.name ≠ b)) b = none := by
  induction l with
  | nil => rfl
  | cons co tl ih =>
    by_cases h : co.name = b
    · simp only [List.filter_cons, h]
      simpa using ih
    · simp only [List.filter_cons]
      rw [if_pos (by simpa using h)]
      rw [lookupCoord_cons, if_neg h]
      exact ih

theorem coords_amendIfSupplied (d : Option (List (String × String))) (c : Cube) :
    (amendIfSupplied d c).coords = c.coords := by
  cases d <;> rfl

theorem findCoord_setCoordPoints (c : Cube) (n m : String) (pts : List String) :
    (c.setCoordPoints n pts).findCoord m =
      if m = n then (c.findCoord m).map (fun co => { co with points := pts })
      else c.findCoord m := by
  unfold Cube.setCoordPoints Cube.findCoord
  exact lookup_mapOnCoord _ n m c.coords (fun co => rfl)

theorem findCoord_setCoordAttrRaw (c : Cube) (n m key val : String) :
    (c.setCoordAttrRaw n key val).findCoord m =
      if m = n then (c.findCoord m).map (fun co => { co with attributes := updateAttr co.attributes key val })
      else c.findCoord m := by
  unfold Cube.setCoordAttrRaw Cube.findCoord
  exact lookup_mapOnCoord _ n m c.coords (fun co => rfl)

theorem hasCoord_setCoordPoints (c : Cube) (n m : String) (pts : List String) :
    (c.setCoordPoints n pts).hasCoord m = c.hasCoord m := by
  unfold Cube.hasCoord
  rw [findCoord_setCoordPoints]
  by_cases h : m = n <;> simp [h]

theorem hasCoord_setCoordAttrRaw (c : Cube) (n m key val : String) :
    (c.setCoordAttrRaw n key val).hasCoord m = c.hasCoord m := by
  unfold Cube.hasCoord
  rw [findCoord_setCoordAttrRaw]
  by_cases h : m = n <;> simp [h]

theorem coordAttr_setCoordPoints (c : Cube) (n m key : String) (pts : List String) :
    (c.setCoordPoints n pts).coordAttr m key = c.coordAttr m key := by
  unfold Cube.coordAttr
  rw [findCoord_setCoordPoints]
  by_cases h : m = n
  · rw [if_pos h]
    cases c.findCoord m <;> rfl
  · rw [if_neg h]

theorem coordAttr_setCoordAttrRaw_self (c : Cube) (n key val : String)
    (h : c.hasCoord n = true) :
    (c.setCoordAttrRaw n key val).coordAttr n key = some val := by
  unfold Cube.hasCoord at h
  obtain ⟨co, hc⟩ := Option.isSome_iff_exists.mp h
  unfold Cube.coordAttr
  rw [findCoord_setCoordAttrRaw, if_pos rfl, hc]
  exact lookupAttr_updateAttr_self co.attributes key val

theorem coordAttr_setCoordAttrRaw_other (c : Cube) (n m key val key2 : String)
    (h : m ≠ n) :
    (c.setCoordAttrRaw n key val).coordAttr m key2 = c.coordAttr m key2 := by
  unfold Cube.coordAttr
  rw [findCoord_setCoordAttrRaw, if_neg h]

theorem setCoordAttr_ok (c : Cube) (n key val : String) (h : c.hasCoord n = true) :
    c.setCoordAttr n key val = .ok (c.setCoordAttrRaw n key val) := by
  unfold Cube.setCoordAttr
  unfold Cube.hasCoord at h
  cases hc : c.findCoord n with
  | none => rw [hc] at h; simp at h
  | some co => rfl

theorem rebadgeSingle_eq (c : Cube) (ct : Option String) :
    rebadgeSingle c ct =
      match rebadgeTarget [c] ct with
      | some t => c.setCoordPoints "forecast_reference_time" [t]
      | none => c := by
  unfold rebadgeSingle rebadge_forecasts_as_latest_cycle
  cases rebadgeTarget [c] ct <;> rfl

theorem hasCoord_rebadgeSingle (c : Cube) (ct : Option String) (m : String) :
    (rebadgeSingle c ct).hasCoord m = c.hasCoord m := by
  rw [rebadgeSingle_eq]
  cases rebadgeTarget [c] ct with
  | none => rfl
  | some t => exact hasCoord_setCoordPoints c _ m [t]

theorem coordAttr_rebadgeSingle (c : Cube) (ct : Option String) (m key : String) :
    (rebadgeSingle c ct).coordAttr m key = c.coordAttr m key := by
  rw [rebadgeSingle_eq]
  cases rebadgeTarget [c] ct with
  | none => rfl
  | some t => exact coordAttr_setCoordPoints c _ m key [t]

theorem hasCoord_amendIfSupplied (d : Option (List (String × String))) (c : Cube) (m : String) :
    (amendIfSupplied d c).hasCoord m = c.hasCoord m := by
  unfold Cube.hasCoord Cube.findCoord
  rw [coords_amendIfSupplied]

theorem coordAttr_amendIfSupplied (d : Option (List (String × String))) (c : Cube) (m key : String) :
    (amendIfSupplied d c).coordAttr m key = c.coordAttr m key := by
  unfold Cube.coordAttr Cube.findCoord
  rw [coords_amendIfSupplied]

theorem coordPoints_setCoordPoints_self (c : Cube) (n : String) (pts : List String)
    (h : c.hasCoord n = true) :
    (c.setCoordPoints n pts).coordPoints n = pts := by
  unfold Cube.hasCoord at h
  obtain ⟨co, hc⟩ := Option.isSome_iff_exists.mp h
  unfold Cube.coordPoints
  rw [findCoord_setCoordPoints, if_pos rfl, hc]
  rfl

theorem coordPoints_add_blend_time (c : Cube) (t : String) :
    (add_blend_time c t).coordPoints "blend_time" = [t] := by
  unfold add_blend_time
  by_cases h : c.hasCoord "blend_time"
  · rw [if_pos h]
    exact coordPoints_setCoordPoints_self c "blend_time" [t] h
  · rw [if_neg h]
    unfold Cube.hasCoord at h
    have hn : c.findCoord "blend_time" = none := by
      cases hc : c.findCoord "blend_time" with
      | none => rfl
      | some co => rw [hc] at h; simp at h
    unfold Cube.coordPoints Cube.findCoord at hn ⊢
    rw [lookup_append_none _ _ _ hn]
    rfl

theorem coordAttr_add_blend_time (c : Cube) (t m key : String) (hm : m ≠ "blend_time") :
    (add_blend_time c t).coordAttr m key = c.coordAttr m key := by
  unfold add_blend_time
  by_cases h : c.hasCoord "blend_time"
  · rw [if_pos h]
    exact coordAttr_setCoordPoints c "blend_time" m key [t]
  · rw [if_neg h]
    unfold Cube.coordAttr Cube.findCoord
    cases hc : lookupCoord c.coords m with
    | none =>
      rw [lookup_append_none _ _ _ hc, lookupCoord_cons]
      rw [if_neg (fun hh => hm hh.symm)]
      rfl
    | some co => rw [lookup_append_some _ _ _ _ hc]

theorem hasCoord_blend_result (b : String) (cube : Cube) (w : Weights)
    (ct : Option String) (ad : Option (List (String × String))) :
    (WeightedBlendAcrossWholeDimension b cube w ct ad).hasCoord b = false := by
  unfold WeightedBlendAcrossWholeDimension
  rw [hasCoord_rebadgeSingle, hasCoord_amendIfSupplied]
  unfold Cube.hasCoord Cube.findCoord
  rw [lookup_filter_ne]
  rfl

theorem updateMetadataOnly_nonspecial (self : WeightAndBlend) (cube : Cube)
    (ad : Option (List (String × String))) (ct : Option String)
    (h1 : self.blend_coord ≠ "forecast_reference_time")
    (h2 : self.blend_coord ≠ "model_id") :
    self.updateMetadataOnly cube ad ct = .ok (rebadgeSingle (amendIfSupplied ad cube) ct) := by
  unfold WeightAndBlend.updateMetadataOnly
  rw [if_neg (by simp [h1, h2])]

theorem deprecateTimeCoords_eq (c : Cube)
    (hfp : c.hasCoord "forecast_period" = true)
    (hfrt : c.hasCoord "forecast_reference_time" = true) :
    deprecateTimeCoords c = .ok
      ((c.setCoordAttrRaw "forecast_period" "deprecation_message" (deprecationMessage "forecast_period")).setCoordAttrRaw
        "forecast_reference_time" "deprecation_message" (deprecationMessage "forecast_reference_time")) := by
  unfold deprecateTimeCoords
  simp only [setCoordAttr_ok c _ _ _ hfp]
  simp only [setCoordAttr_ok _ _ _ _ (show
    (c.setCoordAttrRaw "forecast_period" "deprecation_message"
      (deprecationMessage "forecast_period")).hasCoord "forecast_reference_time" = true from by
    rw [hasCoord_setCoordAttrRaw]; exact hfrt)]

theorem rebadged_hasCoord (cube : Cube) (ad : Option (List (String × String)))
    (ct : Option String) (m : String) :
    (rebadgeSingle (amendIfSupplied ad cube) ct).hasCoord m = cube.hasCoord m := by
  rw [hasCoord_rebadgeSingle, hasCoord_amendIfSupplied]

theorem updateMetadataOnly_special_none (self : WeightAndBlend) (cube : Cube)
    (ad : Option (List (String × String)))
    (hb : self.blend_coord = "forecast_reference_time" ∨ self.blend_coord = "model_id")
    (hfp : cube.hasCoord "forecast_period" = true)
    (hfrt : cube.hasCoord "forecast_reference_time" = true) :
    self.updateMetadataOnly cube ad none = .error (.valueError missingCycletimeMessage) := by
  unfold WeightAndBlend.updateMetadataOnly
  rw [if_pos hb]
  rw [deprecateTimeCoords_eq _ (by rw [rebadged_hasCoord]; exact hfp)
    (by rw [rebadged_hasCoord]; exact hfrt)]

theorem updateMetadataOnly_special_some (self : WeightAndBlend) (cube : Cube)
    (ad : Option (List (String × String))) (ct : String)
    (hb : self.blend_coord = "forecast_reference_time" ∨ self.blend_coord = "model_id")
    (hfp : cube.hasCoord "forecast_period" = true)
    (hfrt : cube.hasCoord "forecast_reference_time" = true) :
    self.updateMetadataOnly cube ad (some ct) = .ok
      (add_blend_time
        (((rebadgeSingle (amendIfSupplied ad cube) (some ct)).setCoordAttrRaw
            "forecast_period" "deprecation_message" (deprecationMessage "forecast_period")).setCoordAttrRaw
          "forecast_reference_time" "deprecation_message" (deprecationMessage "forecast_reference_time"))
        ct) := by
  unfold WeightAndBlend.updateMetadataOnly
  rw [if_pos hb]
  rw [deprecateTimeCoords_eq _ (by rw [rebadged_hasCoord]; exact hfp)
    (by rw [rebadged_hasCoord]; exact hfrt)]

theorem stamped_output_props (cube : Cube) (ad : Option (List (String × String))) (ct : String)
    (hfp : cube.hasCoord "forecast_period" = true)
    (hfrt : cube.hasCoord "forecast_reference_time" = true) :
    (add_blend_time
        (((rebadgeSingle (amendIfSupplied ad cube) (some ct)).setCoordAttrRaw
            "forecast_period" "deprecation_message" (deprecationMessage "forecast_period")).setCoordAttrRaw
          "forecast_reference_time" "deprecation_message" (deprecationMessage "forecast_reference_time"))
        ct).coordPoints "blend_time" = [ct] ∧
    (add_blend_time
        (((rebadgeSingle (amendIfSupplied ad cube) (some ct)).setCoordAttrRaw
            "forecast_period" "deprecation_message" (deprecationMessage "forecast_period")).setCoordAttrRaw
          "forecast_reference_time" "deprecation_message" (deprecationMessage "forecast_reference_time"))
        ct).coordAttr "forecast_period" "deprecation_message" = some (deprecationMessage "forecast_period") ∧
    (add_blend_time
        (((rebadgeSingle (amendIfSupplied ad cube) (some ct)).setCoordAttrRaw
            "forecast_period" "deprecation_message" (deprecationMessage "forecast_period")).setCoordAttrRaw
          "forecast_reference_time" "deprecation_message" (deprecationMessage "forecast_reference_time"))
        ct).coordAttr "forecast_reference_time" "deprecation_message" = some (deprecationMessage "forecast_reference_time") := by
  refine ⟨coordPoints_add_blend_time _ ct, ?_, ?_⟩
  · rw [coordAttr_add_blend_time _ _ _ _ (by decide)]
    rw [coordAttr_setCoordAttrRaw_other _ _ _ _ _ _ (by decide)]
    apply coordAttr_setCoordAttrRaw_self
    rw [rebadged_hasCoord]
    exact hfp
  · rw [coordAttr_add_blend_time _ _ _ _ (by decide)]
    apply coordAttr_setCoordAttrRaw_self
    rw [hasCoord_setCoordAttrRaw, rebadged_hasCoord]
    exact hfrt

theorem processRenamed_degenerate (self : WeightAndBlend) (cube : Cube)
    (ct : Option String) (sw : Bool) (fl : Rat) (ad : Option (List (String × String)))
    (hdeg : self.blend_coord ∉ cube.coordNames ∨ (cube.coordPoints self.blend_coord).length = 1) :
    self.processRenamed cube ct sw fl ad = (self, self.updateMetadataOnly cube ad ct, []) := by
  unfold WeightAndBlend.processRenamed
  rw [if_pos hdeg]

theorem renameBlendCoord_fields (self : WeightAndBlend) :
    (renameBlendCoord self).wts_calc_method = self.wts_calc_method ∧
    (renameBlendCoord self).weighting_coord = self.weighting_coord ∧
    (renameBlendCoord self).wts_dict = self.wts_dict ∧
    (renameBlendCoord self).y0val = self.y0val ∧
    (renameBlendCoord self).ynval = self.ynval ∧
    (renameBlendCoord self).cval = self.cval ∧
    (renameBlendCoord self).inverse_ordering = self.inverse_ordering := by
  unfold renameBlendCoord
  by_cases h : hasSubstr self.blend_coord "model" <;> simp [h]

theorem renameBlendCoord_model (self : WeightAndBlend)
    (h : hasSubstr self.blend_coord "model" = true) :
    (renameBlendCoord self).blend_coord = "model_id" := by
  unfold renameBlendCoord
  rw [if_pos h]

theorem calcWeights_valid (self : WeightAndBlend) (cube : Cube)
    (hvalid : self.wts_calc_method = "dict" ∨ self.wts_calc_method = "linear" ∨
      self.wts_calc_method = "nonlinear") :
    ∃ w ev, self.calculateBlendingWeights cube = (some w, [ev]) ∧
      ev.isWeightCalc = true ∧ ev.isMaskWarning = false ∧ ev.isSpatialRefine = false ∧
      ev.isBlendCall = false ∧ Event.usesBlendCoord self.blend_coord ev = true := by
  unfold WeightAndBlend.calculateBlendingWeights
  rcases hvalid with h | h | h
  · rw [if_pos h]
    exact ⟨_, _, rfl, rfl, rfl, rfl, rfl, rfl⟩
  · rw [if_neg (by rw [h]; decide), if_pos h]
    exact ⟨_, _, rfl, rfl, rfl, rfl, rfl, by simp [Event.usesBlendCoord]⟩
  · rw [if_neg (by rw [h]; decide), if_neg (by rw [h]; decide), if_pos h]
    exact ⟨_, _, rfl, rfl, rfl, rfl, rfl, by simp [Event.usesBlendCoord]⟩

theorem calcWeights_events_use (self : WeightAndBlend) (cube : Cube) :
    ((self.calculateBlendingWeights cube).2).all (Event.usesBlendCoord self.blend_coord) = true := by
  unfold WeightAndBlend.calculateBlendingWeights
  by_cases h1 : self.wts_calc_method = "dict"
  · rw [if_pos h1]; rfl
  · rw [if_neg h1]
    by_cases h2 : self.wts_calc_method = "linear"
    · rw [if_pos h2]; simp [Event.usesBlendCoord]
    · rw [if_neg h2]
      by_cases h3 : self.wts_calc_method = "nonlinear"
      · rw [if_pos h3]; simp [Event.usesBlendCoord]
      · rw [if_neg h3]; rfl

theorem processRenamed_fst (self : WeightAndBlend) (cube : Cube)
    (ct : Option String) (sw : Bool) (fl : Rat) (ad : Option (List (String × String))) :
    (self.processRenamed cube ct sw fl ad).1 = self := by
  unfold WeightAndBlend.processRenamed
  split
  · rfl
  · split
    · rfl
    · split
      · split <;> rfl
      · rfl

theorem updateSpatial_events_use (self : WeightAndBlend) (cube : Cube) (w : Weights) (fl : Rat) :
    ((self.updateSpatialWeightsEv cube w fl).2).all (Event.usesBlendCoord self.blend_coord) = true := by
  unfold WeightAndBlend.updateSpatialWeightsEv check_if_grid_is_equal_area
  by_cases h : cube.equalArea <;> simp [h, Event.usesBlendCoord]

theorem processRenamed_events_use (self : WeightAndBlend) (cube : Cube)
    (ct : Option String) (sw : Bool) (fl : Rat) (ad : Option (List (String × String))) :
    ((self.processRenamed cube ct sw fl ad).2.2).all (Event.usesBlendCoord self.blend_coord) = true := by
  have hcalc := calcWeights_events_use self cube
  unfold WeightAndBlend.processRenamed
  split
  · rfl
  · cases hp : self.calculateBlendingWeights cube with
    | mk wopt ev1 =>
      rw [hp] at hcalc
      cases wopt with
      | none => exact hcalc
      | some w =>
        dsimp only
        by_cases hsw : sw = true
        · rw [if_pos hsw]
          have hsp := updateSpatial_events_use self cube w fl
          cases hq : self.updateSpatialWeightsEv cube w fl with
          | mk r ev2 =>
            rw [hq] at hsp
            cases r with
            | error e =>
              dsimp only
              simp only [List.all_append, Bool.and_eq_true]
              exact ⟨hcalc, hsp⟩
            | ok w2 =>
              dsimp only
              simp only [List.all_append, Bool.and_eq_true]
              refine ⟨⟨hcalc, hsp⟩, ?_⟩
              simp [Event.usesBlendCoord]
        · rw [if_neg hsw]
          dsimp only
          simp only [List.all_append, Bool.and_eq_true]
          refine ⟨⟨hcalc, ?_⟩, ?_⟩
          · by_cases hm : cube.masked <;> simp [hm, Event.usesBlendCoord]
          · simp [Event.usesBlendCoord]

theorem updateSpatial_bad (self : WeightAndBlend) (cube : Cube) (w : Weights) (fl : Rat)
    (hgrid : cube.equalArea = false) :
    self.updateSpatialWeightsEv cube w fl =
      (.error (.geometryError "Grid is not equal area"), [Event.gridCheck cube.equalArea]) := by
  unfold WeightAndBlend.updateSpatialWeightsEv check_if_grid_is_equal_area
  rw [if_neg (by rw [hgrid]; decide)]

theorem updateSpatial_maskcount (self : WeightAndBlend) (cube : Cube) (w : Weights) (fl : Rat) :
    ((self.updateSpatialWeightsEv cube w fl).2).countP Event.isMaskWarning = 0 := by
  unfold WeightAndBlend.updateSpatialWeightsEv check_if_grid_is_equal_area
  by_cases h : cube.equalArea <;> simp [h, List.countP, List.countP.go, Event.isMaskWarning]

theorem processRenamed_spatial_bad_facts (self : WeightAndBlend) (cube : Cube)
    (ct : Option String) (fl : Rat) (ad : Option (List (String × String)))
    (hvalid : self.wts_calc_method = "dict" ∨ self.wts_calc_method = "linear" ∨
      self.wts_calc_method = "nonlinear")
    (hnondeg : ¬(self.blend_coord ∉ cube.coordNames ∨ (cube.coordPoints self.blend_coord).length = 1))
    (hgrid : cube.equalArea = false) :
    (self.processRenamed cube ct true fl ad).2.1 = .error (.geometryError "Grid is not equal area") ∧
    ((self.processRenamed cube ct true fl ad).2.2).any Event.isWeightCalc = true ∧
    ((self.processRenamed cube ct true fl ad).2.2).any Event.isSpatialRefine = false ∧
    ((self.processRenamed cube ct true fl ad).2.2).any Event.isBlendCall = false := by
  obtain ⟨w, ev, hcalc, hwc, hmw, hsr, hbc, hu⟩ := calcWeights_valid self cube hvalid
  have heq : self.processRenamed cube ct true fl ad =
      (self, .error (.geometryError "Grid is not equal area"),
        [ev] ++ [Event.gridCheck cube.equalArea]) := by
    unfold WeightAndBlend.processRenamed
    rw [if_neg hnondeg, hcalc]
    dsimp only
    rw [if_pos rfl, updateSpatial_bad self cube w fl hgrid]
  rw [heq]
  refine ⟨rfl, ?_, ?_, ?_⟩
  · show (ev.isWeightCalc || ((Event.gridCheck cube.equalArea).isWeightCalc || false)) = true
    rw [hwc]; rfl
  · show (ev.isSpatialRefine || ((Event.gridCheck cube.equalArea).isSpatialRefine || false)) = false
    rw [hsr]
    cases cube.equalArea <;> rfl
  · show (ev.isBlendCall || ((Event.gridCheck cube.equalArea).isBlendCall || false)) = false
    rw [hbc]
    cases cube.equalArea <;> rfl

theorem processRenamed_maskcount (self : WeightAndBlend) (cube : Cube)
    (ct : Option String) (sw : Bool) (fl : Rat) (ad : Option (List (String × String)))
    (hvalid : self.wts_calc_method = "dict" ∨ self.wts_calc_method = "linear" ∨
      self.wts_calc_method = "nonlinear")
    (hnondeg : ¬(self.blend_coord ∉ cube.coordNames ∨ (cube.coordPoints self.blend_coord).length = 1)) :
    ((self.processRenamed cube ct sw fl ad).2.2).countP Event.isMaskWarning =
      if sw = false ∧ cube.masked = true then 1 else 0 := by
  obtain ⟨w, ev, hcalc, hwc, hmw, hsr, hbc, hu⟩ := calcWeights_valid self cube hvalid
  have hbl : Event.isMaskWarning (Event.blendCall self.blend_coord) = false := rfl
  have hwn : Event.isMaskWarning (Event.maskWarning maskWarningMessage) = true := rfl
  unfold WeightAndBlend.processRenamed
  rw [if_neg hnondeg, hcalc]
  dsimp only
  by_cases hsw : sw = true
  · rw [if_pos hsw]
    have hms := updateSpatial_maskcount self cube w fl
    cases hq : self.updateSpatialWeightsEv cube w fl with
    | mk r ev2 =>
      rw [hq] at hms
      have hms2 : List.countP Event.isMaskWarning ev2 = 0 := hms
      cases r with
      | error e =>
        dsimp only
        rw [List.countP_append, hms2, List.countP_cons, List.countP_nil, hmw]
        simp [hsw]
      | ok w2 =>
        dsimp only
        rw [List.countP_append, List.countP_append, hms2, List.countP_cons,
          List.countP_nil, List.countP_cons, List.countP_nil, hmw, hbl]
        simp [hsw]
  · rw [if_neg hsw]
    dsimp only
    have hsw2 : sw = false := by revert hsw; cases sw <;> simp
    rw [List.countP_append, List.countP_append, List.countP_cons, List.countP_nil,
      List.countP_cons, List.countP_nil, hmw, hbl]
    by_cases hm : cube.masked = true
    · rw [if_pos hm, List.countP_cons, List.countP_nil, hwn]
      simp [hsw2, hm]
    · have hm2 : cube.masked = false := by revert hm; cases cube.masked <;> simp
      rw [hm2]
      simp [hsw2, hm2, List.countP_nil]

theorem processRenamed_nospatial_ok (self : WeightAndBlend) (cube : Cube)
    (ct : Option String) (fl : Rat) (ad : Option (List (String × String)))
    (hvalid : self.wts_calc_method = "dict" ∨ self.wts_calc_method = "linear" ∨
      self.wts_calc_method = "nonlinear")
    (hnondeg : ¬(self.blend_coord ∉ cube.coordNames ∨ (cube.coordPoints self.blend_coord).length = 1)) :
    ((self.processRenamed cube ct false fl ad).2.1).toOption.map
      (fun out => out.hasCoord self.blend_coord) = some false := by
  obtain ⟨w, ev, hcalc, hwc, hmw, hsr, hbc, hu⟩ := calcWeights_valid self cube hvalid
  unfold WeightAndBlend.processRenamed
  rw [if_neg hnondeg, hcalc]
  dsimp only
  rw [if_neg (by decide)]
  show some ((WeightedBlendAcrossWholeDimension self.blend_coord cube w ct ad).hasCoord self.blend_coord) = some false
  rw [hasCoord_blend_result]

theorem updateMetadataOnlyS_frame (self : WeightAndBlend) (s : Store) (cubeRef r : Nat)
    (ad : Option (List (String × String))) (ct : Option String) (hr : r < s.next) :
    ((self.updateMetadataOnlyS s cubeRef ad ct).2).read r = s.read r := by
  have h1 : r ≠ s.next := Nat.ne_of_lt hr
  have h2 : r ≠ s.next + 1 := by omega
  unfold WeightAndBlend.updateMetadataOnlyS
  cases ad with
  | none =>
    dsimp only
    split
    · split
      · simp [Store.read, Store.alloc, Store.write, h1, h2]
      · split
        · simp [Store.read, Store.alloc, Store.write, h1, h2]
        · split
          · simp [Store.read, Store.alloc, Store.write, h1, h2]
          · simp [Store.read, Store.alloc, Store.write, h1, h2]
    · simp [Store.read, Store.alloc, Store.write, h1, h2]
  | some d =>
    dsimp only
    split
    · split
      · simp [Store.read, Store.alloc, Store.write, h1, h2]
      · split
        · simp [Store.read, Store.alloc, Store.write, h1, h2]
        · split
          · simp [Store.read, Store.alloc, Store.write, h1, h2]
          · simp [Store.read, Store.alloc, Store.write, h1, h2]
    · simp [Store.read, Store.alloc, Store.write, h1, h2]

theorem init_ok_inversion (bc m : String) (wc : Option String) (wd : Option WtsDict)
    (y0 yn cv : Option Rat) (inv : Bool) (self : WeightAndBlend)
    (hok : WeightAndBlend.init bc m wc wd y0 yn cv inv = .ok self) :
    self.wts_calc_method = m ∧ (m = "dict" ∨ m = "linear" ∨ m = "nonlinear") := by
  unfold WeightAndBlend.init at hok
  by_cases h1 : m = "dict"
  · rw [if_pos h1] at hok; cases hok; exact ⟨rfl, Or.inl h1⟩
  · rw [if_neg h1] at hok
    by_cases h2 : m = "linear"
    · rw [if_pos h2] at hok; cases hok; exact ⟨rfl, Or.inr (Or.inl h2)⟩
    · rw [if_neg h2] at hok
      by_cases h3 : m = "nonlinear"
      · rw [if_pos h3] at hok; cases hok; exact ⟨rfl, Or.inr (Or.inr h3)⟩
      · rw [if_neg h3] at hok; cases hok

/-- Claim C1: constructing the orchestrator with the method tag dict, linear
or nonlinear succeeds, and constructing it with any other method tag fails
with a ValueError, for every value of the other constructor parameters. -/
theorem claim_C1_method_tag_validation (blend_coord wts_calc_method : String)
    (weighting_coord : Option String) (wts_dict : Option WtsDict)
    (y0val ynval cval : Option Rat) (inverse_ordering : Bool) :
    ((wts_calc_method = "dict" ∨ wts_calc_method = "linear" ∨ wts_calc_method = "nonlinear") →
      ∃ self, WeightAndBlend.init blend_coord wts_calc_method weighting_coord wts_dict
        y0val ynval cval inverse_ordering = .ok self) ∧
    ((wts_calc_method ≠ "dict" ∧ wts_calc_method ≠ "linear" ∧ wts_calc_method ≠ "nonlinear") →
      WeightAndBlend.init blend_coord wts_calc_method weighting_coord wts_dict
        y0val ynval cval inverse_ordering =
          .error (.valueError ("Weights calculation method " ++ wts_calc_method ++ " unrecognised"))) := by
  constructor
  · intro h
    unfold WeightAndBlend.init
    rcases h with h | h | h
    · rw [if_pos h]; exact ⟨_, rfl⟩
    · rw [if_neg (by rw [h]; decide), if_pos h]; exact ⟨_, rfl⟩
    · rw [if_neg (by rw [h]; decide), if_neg (by rw [h]; decide), if_pos h]; exact ⟨_, rfl⟩
  · rintro ⟨h1, h2, h3⟩
    unfold WeightAndBlend.init
    rw [if_neg h1, if_neg h2, if_neg h3]

/-- Witness for claim C1 at concrete inputs. -/
theorem claim_C1_witness :
    exOk (WeightAndBlend.init "model" "linear" none none (some 1) (some 0) none false) = true ∧
    WeightAndBlend.init "model" "kalman" none none none none none false =
      .error (.valueError ("Weights calculation method " ++ "kalman" ++ " unrecognised")) := by
  constructor
  · obtain ⟨s, hs⟩ := (claim_C1_method_tag_validation "model" "linear" none none
      (some 1) (some 0) none false).1 (Or.inr (Or.inl rfl))
    rw [hs]; rfl
  · exact (claim_C1_method_tag_validation "model" "kalman" none none
      none none none false).2 (by decide)

/-- Claim C2, amended: in the degenerate branch (blend coordinate absent from
the merged cube or carrying one point) no weight-calculation, spatial,
warning or reduction collaborator runs (the trace is empty), and whenever the
possibly-rewritten blend coordinate is neither forecast_reference_time nor
model_id the returned output is exactly the attribute-amended (when a map is
supplied), cycle-rebadged copy of the merged cube. -/
theorem claim_C2_degenerate_passthrough (self : WeightAndBlend) (cube : Cube)
    (cycletime : Option String) (spatial_weights : Bool) (fuzzy_length : Rat)
    (attributes_dict : Option (List (String × String)))
    (hdeg : (renameBlendCoord self).blend_coord ∉ cube.coordNames ∨
      (cube.coordPoints (renameBlendCoord self).blend_coord).length = 1) :
    (self.processAfterMerge cube cycletime spatial_weights fuzzy_length attributes_dict).2.2 = [] ∧
    ((renameBlendCoord self).blend_coord ≠ "forecast_reference_time" →
      (renameBlendCoord self).blend_coord ≠ "model_id" →
      (self.processAfterMerge cube cycletime spatial_weights fuzzy_length attributes_dict).2.1 =
        .ok (rebadgeSingle (amendIfSupplied attributes_dict cube) cycletime)) := by
  unfold WeightAndBlend.processAfterMerge
  rw [processRenamed_degenerate _ _ _ _ _ _ hdeg]
  refine ⟨rfl, fun h1 h2 => ?_⟩
  exact updateMetadataOnly_nonspecial _ _ _ _ h1 h2

def wbC2ce : WeightAndBlend := ⟨"model_id", "linear", none, none, some 1, some 0, none, false⟩

def cubeC2ce : Cube :=
  ⟨[⟨"model_id", ["uk_det"], []⟩,
    ⟨"forecast_reference_time", ["20200101T0000Z"], []⟩,
    ⟨"forecast_period", ["3600"], []⟩], [("source", "old")], false, true, 2000⟩

/-- Counterexample to claim C2 as stated: a degenerate invocation with blend
coordinate model_id and a supplied cycle time returns an output that is not
the attribute-amended, cycle-rebadged copy of the merged cube (it also
carries a blend-time coordinate and deprecation advisories). -/
theorem claim_C2_counterexample :
    (wbC2ce.processAfterMerge cubeC2ce (some "20200101T0600Z") false 20000 none).2.1 ≠
      .ok (rebadgeSingle (amendIfSupplied none cubeC2ce) (some "20200101T0600Z")) := by
  decide

def wbC2w : WeightAndBlend := ⟨"realization", "linear", none, none, some 1, some 0, none, false⟩

def cubeC2w : Cube :=
  ⟨[⟨"realization", ["0"], []⟩,
    ⟨"forecast_reference_time", ["20200101T0000Z"], []⟩,
    ⟨"forecast_period", ["3600"], []⟩], [("source", "old")], false, true, 2000⟩

/-- Witness for the amended claim C2 at concrete inputs. -/
theorem claim_C2_witness :
    (wbC2w.processAfterMerge cubeC2w none false 20000 (some [("source", "updated")])).2.2 = [] ∧
    (wbC2w.processAfterMerge cubeC2w none false 20000 (some [("source", "updated")])).2.1 =
      .ok (rebadgeSingle (amendIfSupplied (some [("source", "updated")]) cubeC2w) none) := by
  have h := claim_C2_degenerate_passthrough wbC2w cubeC2w none false 20000
    (some [("source", "updated")]) (by decide)
  exact ⟨h.1, h.2 (by decide) (by decide)⟩

/-- Claim C3: in the degenerate branch with blend coordinate
forecast_reference_time or model_id and no cycle time supplied, the
invocation fails with the ValueError demanding a cycle time (stated for
merged cubes carrying the forecast-time coordinates the repair step touches);
for any other blend coordinate the degenerate branch succeeds without a
cycle time. -/
theorem claim_C3_degenerate_cycletime_requirement (self : WeightAndBlend) (cube : Cube)
    (spatial_weights : Bool) (fuzzy_length : Rat)
    (attributes_dict : Option (List (String × String)))
    (hdeg : (renameBlendCoord self).blend_coord ∉ cube.coordNames ∨
      (cube.coordPoints (renameBlendCoord self).blend_coord).length = 1) :
    (((renameBlendCoord self).blend_coord = "forecast_reference_time" ∨
        (renameBlendCoord self).blend_coord = "model_id") →
      cube.hasCoord "forecast_period" = true →
      cube.hasCoord "forecast_reference_time" = true →
      (self.processAfterMerge cube none spatial_weights fuzzy_length attributes_dict).2.1 =
        .error (.valueError missingCycletimeMessage)) ∧
    ((renameBlendCoord self).blend_coord ≠ "forecast_reference_time" →
      (renameBlendCoord self).blend_coord ≠ "model_id" →
      exOk (self.processAfterMerge cube none spatial_weights fuzzy_length attributes_dict).2.1 = true) := by
  unfold WeightAndBlend.processAfterMerge
  rw [processRenamed_degenerate _ _ _ _ _ _ hdeg]
  constructor
  · intro hb hfp hfrt
    exact updateMetadataOnly_special_none _ _ _ hb hfp hfrt
  · intro h1 h2
    rw [updateMetadataOnly_nonspecial _ _ _ _ h1 h2]
    rfl

def wbC3w : WeightAndBlend := ⟨"forecast_reference_time", "nonlinear", none, none, none, none, some 1, false⟩

def cubeC3w : Cube :=
  ⟨[⟨"forecast_reference_time", ["20200101T0000Z"], []⟩,
    ⟨"forecast_period", ["3600"], []⟩], [], false, true, 2000⟩

def wbC3w2 : WeightAndBlend := ⟨"realization", "linear", none, none, some 1, some 0, none, false⟩

/-- Witness for claim C3 at concrete inputs: the error branch for cycle
blending and the success branch for an ordinary blend coordinate. -/
theorem claim_C3_witness :
    (wbC3w.processAfterMerge cubeC3w none false 20000 none).2.1 =
      .error (.valueError missingCycletimeMessage) ∧
    exOk (wbC3w2.processAfterMerge cubeC2w none false 20000 none).2.1 = true := by
  constructor
  · exact (claim_C3_degenerate_cycletime_requirement wbC3w cubeC3w false 20000 none
      (by decide)).1 (by decide) (by decide) (by decide)
  · exact (claim_C3_degenerate_cycletime_requirement wbC3w2 cubeC2w false 20000 none
      (by decide)).2 (by decide) (by decide)

/-- Claim C4: in the degenerate branch with blend coordinate
forecast_reference_time or model_id and a supplied cycle time, the returned
container carries a blend-time coordinate equal to that cycle time and the
deprecation advisory attribute on both the forecast_period and
forecast_reference_time coordinates (stated for merged cubes carrying those
two coordinates). -/
theorem claim_C4_blend_time_stamping (self : WeightAndBlend) (cube : Cube) (ct : String)
    (spatial_weights : Bool) (fuzzy_length : Rat)
    (attributes_dict : Option (List (String × String)))
    (hdeg : (renameBlendCoord self).blend_coord ∉ cube.coordNames ∨
      (cube.coordPoints (renameBlendCoord self).blend_coord).length = 1)
    (hb : (renameBlendCoord self).blend_coord = "forecast_reference_time" ∨
      (renameBlendCoord self).blend_coord = "model_id")
    (hfp : cube.hasCoord "forecast_period" = true)
    (hfrt : cube.hasCoord "forecast_reference_time" = true) :
    ((self.processAfterMerge cube (some ct) spatial_weights fuzzy_length attributes_dict).2.1).toOption.map
      (fun out => out.coordPoints "blend_time") = some [ct] ∧
    ((self.processAfterMerge cube (some ct) spatial_weights fuzzy_length attributes_dict).2.1).toOption.map
      (fun out => out.coordAttr "forecast_period" "deprecation_message") =
        some (some (deprecationMessage "forecast_period")) ∧
    ((self.processAfterMerge cube (some ct) spatial_weights fuzzy_length attributes_dict).2.1).toOption.map
      (fun out => out.coordAttr "forecast_reference_time" "deprecation_message") =
        some (some (deprecationMessage "forecast_reference_time")) := by
  unfold WeightAndBlend.processAfterMerge
  rw [processRenamed_degenerate _ _ _ _ _ _ hdeg]
  dsimp only
  rw [updateMetadataOnly_special_some _ _ _ _ hb hfp hfrt]
  obtain ⟨hp1, hp2, hp3⟩ := stamped_output_props cube attributes_dict ct hfp hfrt
  refine ⟨?_, ?_, ?_⟩
  · simp only [Except.toOption, Option.map_some']
    exact congrArg some hp1
  · simp only [Except.toOption, Option.map_some']
    exact congrArg some hp2
  · simp only [Except.toOption, Option.map_some']
    exact congrArg some hp3

def wbC4w : WeightAndBlend := ⟨"model", "dict", some "forecast_period", some [], none, none, none, false⟩

def cubeC4w : Cube :=
  ⟨[⟨"model_id", ["uk_det"], []⟩,
    ⟨"forecast_reference_time", ["20200101T0000Z"], []⟩,
    ⟨"forecast_period", ["3600"], []⟩], [], false, true, 2000⟩

/-- Witness for claim C4 at concrete inputs. -/
theorem claim_C4_witness :
    ((wbC4w.processAfterMerge cubeC4w (some "20200101T0600Z") false 20000 none).2.1).toOption.map
      (fun out => out.coordPoints "blend_time") = some ["20200101T0600Z"] ∧
    ((wbC4w.processAfterMerge cubeC4w (some "20200101T0600Z") false 20000 none).2.1).toOption.map
      (fun out => out.coordAttr "forecast_period" "deprecation_message") =
        some (some (deprecationMessage "forecast_period")) := by
  have h := claim_C4_blend_time_stamping wbC4w cubeC4w "20200101T0600Z" false 20000 none
    (by decide) (by decide) (by decide) (by decide)
  exact ⟨h.1, h.2.1⟩

/-- Claim C5, amended: a non-degenerate invocation with spatial weighting on
a non-equal-area grid fails with the geometry error, which propagates uncaught
as the invocation result; the spatial refiner and the weighted reducer are not
invoked, but the 1-D weight calculator has already run by the time the grid
check fails. -/
theorem claim_C5_geometry_error (self : WeightAndBlend) (cube : Cube)
    (cycletime : Option String) (fuzzy_length : Rat)
    (attributes_dict : Option (List (String × String)))
    (hvalid : self.wts_calc_method = "dict" ∨ self.wts_calc_method = "linear" ∨
      self.wts_calc_method = "nonlinear")
    (hnondeg : ¬((renameBlendCoord self).blend_coord ∉ cube.coordNames ∨
      (cube.coordPoints (renameBlendCoord self).blend_coord).length = 1))
    (hgrid : cube.equalArea = false) :
    (self.processAfterMerge cube cycletime true fuzzy_length attributes_dict).2.1 =
      .error (.geometryError "Grid is not equal area") ∧
    ((self.processAfterMerge cube cycletime true fuzzy_length attributes_dict).2.2).any
      Event.isWeightCalc = true ∧
    ((self.processAfterMerge cube cycletime true fuzzy_length attributes_dict).2.2).any
      Event.isSpatialRefine = false ∧
    ((self.processAfterMerge cube cycletime true fuzzy_length attributes_dict).2.2).any
      Event.isBlendCall = false := by
  unfold WeightAndBlend.processAfterMerge
  have hv2 : (renameBlendCoord self).wts_calc_method = "dict" ∨
      (renameBlendCoord self).wts_calc_method = "linear" ∨
      (renameBlendCoord self).wts_calc_method = "nonlinear" := by
    rw [(renameBlendCoord_fields self).1]; exact hvalid
  exact processRenamed_spatial_bad_facts (renameBlendCoord self) cube cycletime fuzzy_length
    attributes_dict hv2 hnondeg hgrid

def wbC5ce : WeightAndBlend := ⟨"model_id", "linear", none, none, some 1, some 0, none, false⟩

def cubeC5ce : Cube :=
  ⟨[⟨"model_id", ["uk_det", "uk_ens"], []⟩,
    ⟨"forecast_reference_time", ["20200101T0000Z"], []⟩,
    ⟨"forecast_period", ["3600"], []⟩], [], false, false, 2000⟩

/-- Counterexample to claim C5 as stated: on a non-equal-area grid with
spatial weighting requested, the invocation does fail with the geometry
error, but the weight calculator has been invoked before the failure,
contradicting the claim that it is not invoked. -/
theorem claim_C5_counterexample :
    (wbC5ce.processAfterMerge cubeC5ce none true 20000 none).2.1 =
      .error (.geometryError "Grid is not equal area") ∧
    ((wbC5ce.processAfterMerge cubeC5ce none true 20000 none).2.2).any Event.isWeightCalc = true := by
  decide

def wbC5w : WeightAndBlend := ⟨"forecast_reference_time", "nonlinear", none, none, none, none, some 1, false⟩

def cubeC5w : Cube :=
  ⟨[⟨"forecast_reference_time", ["20200101T0000Z", "20200101T0600Z"], []⟩,
    ⟨"forecast_period", ["3600"], []⟩], [], false, false, 2000⟩

/-- Witness for the amended claim C5 at concrete inputs. -/
theorem claim_C5_witness :
    (wbC5w.processAfterMerge cubeC5w none true 20000 none).2.1 =
      .error (.geometryError "Grid is not equal area") ∧
    ((wbC5w.processAfterMerge cubeC5w none true 20000 none).2.2).any Event.isSpatialRefine = false := by
  have h := claim_C5_geometry_error wbC5w cubeC5w none 20000 none
    (by decide) (by decide) (by decide)
  exact ⟨h.1, h.2.2.1⟩

/-- Claim C6: in a non-degenerate invocation of a validly configured
orchestrator, exactly one masked-data advisory warning is emitted if and only
if spatial weighting was not requested and the merged data is masked; and
with spatial weighting off the invocation still returns a valid reduced
output (the blend coordinate has been collapsed out). -/
theorem claim_C6_masked_advisory (self : WeightAndBlend) (cube : Cube)
    (cycletime : Option String) (spatial_weights : Bool) (fuzzy_length : Rat)
    (attributes_dict : Option (List (String × String)))
    (hvalid : self.wts_calc_method = "dict" ∨ self.wts_calc_method = "linear" ∨
      self.wts_calc_method = "nonlinear")
    (hnondeg : ¬((renameBlendCoord self).blend_coord ∉ cube.coordNames ∨
      (cube.coordPoints (renameBlendCoord self).blend_coord).length = 1)) :
    ((self.processAfterMerge cube cycletime spatial_weights fuzzy_length attributes_dict).2.2).countP
      Event.isMaskWarning = (if spatial_weights = false ∧ cube.masked = true then 1 else 0) ∧
    (spatial_weights = false →
      ((self.processAfterMerge cube cycletime spatial_weights fuzzy_length attributes_dict).2.1).toOption.map
        (fun out => out.hasCoord (renameBlendCoord self).blend_coord) = some false) := by
  have hv2 : (renameBlendCoord self).wts_calc_method = "dict" ∨
      (renameBlendCoord self).wts_calc_method = "linear" ∨
      (renameBlendCoord self).wts_calc_method = "nonlinear" := by
    rw [(renameBlendCoord_fields self).1]; exact hvalid
  constructor
  · unfold WeightAndBlend.processAfterMerge
    exact processRenamed_maskcount (renameBlendCoord self) cube cycletime spatial_weights
      fuzzy_length attributes_dict hv2 hnondeg
  · intro hsw
    subst hsw
    unfold WeightAndBlend.processAfterMerge
    exact processRenamed_nospatial_ok (renameBlendCoord self) cube cycletime fuzzy_length
      attributes_dict hv2 hnondeg

def wbC6w : WeightAndBlend := ⟨"model_id", "linear", none, none, some 1, some 0, none, false⟩

def cubeC6w : Cube :=
  ⟨[⟨"model_id", ["uk_det", "uk_ens"], []⟩,
    ⟨"forecast_reference_time", ["20200101T0000Z"], []⟩,
    ⟨"forecast_period", ["3600"], []⟩], [], true, true, 2000⟩

/-- Witness for claim C6 at concrete inputs: masked data without spatial
weighting emits exactly one advisory and still yields a reduced output, and
the same masked data with spatial weighting emits none. -/
theorem claim_C6_witness :
    ((wbC6w.processAfterMerge cubeC6w none false 20000 none).2.2).countP Event.isMaskWarning =
      (if false = false ∧ cubeC6w.masked = true then 1 else 0) ∧
    ((wbC6w.processAfterMerge cubeC6w none false 20000 none).2.1).toOption.map
      (fun out => out.hasCoord (renameBlendCoord wbC6w).blend_coord) = some false ∧
    ((wbC6w.processAfterMerge cubeC6w none true 20000 none).2.2).countP Event.isMaskWarning =
      (if true = false ∧ cubeC6w.masked = true then 1 else 0) := by
  have h1 := claim_C6_masked_advisory wbC6w cubeC6w none false 20000 none (by decide) (by decide)
  have h2 := claim_C6_masked_advisory wbC6w cubeC6w none true 20000 none (by decide) (by decide)
  exact ⟨h1.1, h1.2 rfl, h2.1⟩

/-- Claim C7: in dict mode, the identity-coordinate name handed to the
dictionary-driven weight calculator is the fixed internal name
model_configuration whenever the (possibly already rewritten) blend
coordinate name contains the substring model, and is the blend coordinate
name itself verbatim otherwise. -/
theorem claim_C7_dict_config_coord (self : WeightAndBlend) (cube : Cube)
    (hdict : self.wts_calc_method = "dict") :
    (hasSubstr self.blend_coord "model" = true →
      (self.calculateBlendingWeights cube).2 =
        [Event.weightCalcDict self.weighting_coord "model_configuration"]) ∧
    (hasSubstr self.blend_coord "model" = false →
      (self.calculateBlendingWeights cube).2 =
        [Event.weightCalcDict self.weighting_coord self.blend_coord]) := by
  unfold WeightAndBlend.calculateBlendingWeights
  rw [if_pos hdict]
  constructor <;> intro h <;> simp [h]

def wbC7a : WeightAndBlend := ⟨"model_id", "dict", some "forecast_period", some [], none, none, none, false⟩

def wbC7b : WeightAndBlend := ⟨"forecast_reference_time", "dict", some "forecast_period", some [], none, none, none, false⟩

/-- Witness for claim C7 at concrete inputs: one blend coordinate containing
the multi-model marker, one without. -/
theorem claim_C7_witness :
    (wbC7a.calculateBlendingWeights cubeC6w).2 =
      [Event.weightCalcDict (some "forecast_period") "model_configuration"] ∧
    (wbC7b.calculateBlendingWeights cubeC6w).2 =
      [Event.weightCalcDict (some "forecast_period") "forecast_reference_time"] := by
  exact ⟨(claim_C7_dict_config_coord wbC7a cubeC6w rfl).1 (by decide),
    (claim_C7_dict_config_coord wbC7b cubeC6w rfl).2 (by decide)⟩

/-- Claim C8: when the stored blend coordinate name contains model, process
rewrites the blend-coordinate field of the instance to model_id (after merge,
before the degenerate check); the rewritten instance is what the invocation
returns, every blend-coordinate argument handed to a collaborator during the
invocation is the rewritten name, and no other configuration field of the
instance is changed. -/
theorem claim_C8_blend_coord_rewrite (self : WeightAndBlend) (cube : Cube)
    (cycletime : Option String) (spatial_weights : Bool) (fuzzy_length : Rat)
    (attributes_dict : Option (List (String × String)))
    (hmodel : hasSubstr self.blend_coord "model" = true) :
    (self.processAfterMerge cube cycletime spatial_weights fuzzy_length attributes_dict).1.blend_coord = "model_id" ∧
    (self.processAfterMerge cube cycletime spatial_weights fuzzy_length attributes_dict).1.wts_calc_method = self.wts_calc_method ∧
    (self.processAfterMerge cube cycletime spatial_weights fuzzy_length attributes_dict).1.weighting_coord = self.weighting_coord ∧
    (self.processAfterMerge cube cycletime spatial_weights fuzzy_length attributes_dict).1.wts_dict = self.wts_dict ∧
    (self.processAfterMerge cube cycletime spatial_weights fuzzy_length attributes_dict).1.y0val = self.y0val ∧
    (self.processAfterMerge cube cycletime spatial_weights fuzzy_length attributes_dict).1.ynval = self.ynval ∧
    (self.processAfterMerge cube cycletime spatial_weights fuzzy_length attributes_dict).1.cval = self.cval ∧
    (self.processAfterMerge cube cycletime spatial_weights fuzzy_length attributes_dict).1.inverse_ordering = self.inverse_ordering ∧
    ((self.processAfterMerge cube cycletime spatial_weights fuzzy_length attributes_dict).2.2).all
      (Event.usesBlendCoord "model_id") = true := by
  unfold WeightAndBlend.processAfterMerge
  rw [processRenamed_fst]
  obtain ⟨f1, f2, f3, f4, f5, f6, f7⟩ := renameBlendCoord_fields self
  have hevents := processRenamed_events_use (renameBlendCoord self) cube cycletime
    spatial_weights fuzzy_length attributes_dict
  rw [renameBlendCoord_model self hmodel] at hevents
  exact ⟨renameBlendCoord_model self hmodel, f1, f2, f3, f4, f5, f6, f7, hevents⟩

def wbC8w : WeightAndBlend := ⟨"model", "linear", none, none, some 1, some 0, none, false⟩

/-- Witness for claim C8 at concrete inputs. -/
theorem claim_C8_witness :
    (wbC8w.processAfterMerge cubeC6w none false 20000 none).1.blend_coord = "model_id" ∧
    (wbC8w.processAfterMerge cubeC6w none false 20000 none).1.wts_calc_method = wbC8w.wts_calc_method ∧
    ((wbC8w.processAfterMerge cubeC6w none false 20000 none).2.2).all
      (Event.usesBlendCoord "model_id") = true := by
  have h := claim_C8_blend_coord_rewrite wbC8w cubeC6w none false 20000 none (by decide)
  exact ⟨h.1, h.2.1, h.2.2.2.2.2.2.2.2⟩

/-- Claim C9: for every successfully constructed orchestrator the weight
dispatch always matches one of the three method branches and returns a
defined weights value (the fall-through that would leave the Python variable
unassigned is unreachable), because the method tag is validated at
construction and never mutated afterwards (process preserves it). -/
theorem claim_C9_dispatch_exhaustive (bc m : String) (wc : Option String)
    (wd : Option WtsDict) (y0 yn cv : Option Rat) (inv : Bool) (self : WeightAndBlend)
    (hok : WeightAndBlend.init bc m wc wd y0 yn cv inv = .ok self) :
    (∀ cube, ((self.calculateBlendingWeights cube).1).isSome = true) ∧
    (∀ cube cycletime spatial_weights fuzzy_length attributes_dict,
      ((self.processAfterMerge cube cycletime spatial_weights fuzzy_length attributes_dict).1).wts_calc_method =
        self.wts_calc_method) := by
  obtain ⟨hm, hvalid⟩ := init_ok_inversion bc m wc wd y0 yn cv inv self hok
  constructor
  · intro cube
    obtain ⟨w, ev, hcalc, _⟩ := calcWeights_valid self cube (by rw [hm]; exact hvalid)
    rw [hcalc]
    rfl
  · intro cube cycletime spatial_weights fuzzy_length attributes_dict
    unfold WeightAndBlend.processAfterMerge
    rw [processRenamed_fst]
    exact (renameBlendCoord_fields self).1

def wbC9w : WeightAndBlend := ⟨"model", "nonlinear", none, none, none, none, some 1, false⟩

/-- Witness for claim C9 at concrete inputs. -/
theorem claim_C9_witness :
    ((wbC9w.calculateBlendingWeights cubeC6w).1).isSome = true ∧
    ((wbC9w.processAfterMerge cubeC6w none false 20000 none).1).wts_calc_method =
      wbC9w.wts_calc_method := by
  have h := claim_C9_dispatch_exhaustive "model" "nonlinear" none none none none (some 1) false
    wbC9w (by decide)
  exact ⟨h.1 cubeC6w, h.2 cubeC6w none false 20000 none⟩

/-- Claim C10: when the degenerate metadata-repair step fails with the
missing-cycle-time ValueError, the merged input container it was handed is
left unchanged: every amendment, rebadging and deprecation update before the
error was applied to a copy, which is discarded. -/
theorem claim_C10_input_unchanged_on_error (self : WeightAndBlend) (s : Store) (cubeRef : Nat)
    (attributes_dict : Option (List (String × String)))
    (href : cubeRef < s.next)
    (herr : (self.updateMetadataOnlyS s cubeRef attributes_dict none).1 =
      .error (.valueError missingCycletimeMessage)) :
    ((self.updateMetadataOnlyS s cubeRef attributes_dict none).2).read cubeRef = s.read cubeRef :=
  updateMetadataOnlyS_frame self s cubeRef cubeRef attributes_dict none href

def cubeC10w : Cube :=
  ⟨[⟨"forecast_reference_time", ["20200101T0000Z"], []⟩,
    ⟨"forecast_period", ["3600"], []⟩], [("source", "old")], false, true, 2000⟩

def storeC10w : Store := ⟨fun _ => cubeC10w, 1⟩

def wbC10w : WeightAndBlend := ⟨"model_id", "dict", some "forecast_period", some [], none, none, none, false⟩

/-- Witness for claim C10 at concrete inputs. -/
theorem claim_C10_witness :
    ((wbC10w.updateMetadataOnlyS storeC10w 0 (some [("source", "new")]) none).2).read 0 =
      storeC10w.read 0 :=
  claim_C10_input_unchanged_on_error wbC10w storeC10w 0 (some [("source", "new")])
    (by decide) (by decide)
